import Mathlib

/-
Verification of the foreign-callback bridging layer of the go-rust-ffi
repository (src/src/main.rs), as a shallow embedding in Lean 4.

The bridge never performs arithmetic on the c_double values it shuttles
across the FFI boundary; the only numeric literal it produces itself is
the 0.0 sentinel.  We therefore model c_double by the rationals, which
give us 0, negation, large values and decidable equality.  Machine
integers that matter (the u32 CALLBACK_COUNT in async_trampoline_multi)
are modelled by Nat with an explicit mod 2 ^ 32.
-/

/-- Model of the c_double payload type carried across the bridge. -/
abbrev F64 := ℚ

/- ------------------------------------------------------------------
   Synchronous path: CALLBACK_STORE, trampoline, call_callback_with
   (main.rs lines 18-21, 181-198, 239-246).
   ------------------------------------------------------------------ -/

/-- Shallow embedding of the extern trampoline (main.rs 239-246): it
locks the global CALLBACK_STORE, applies the armed closure if one is
present, and returns the 0.0 sentinel when the slot is Empty. -/
def trampoline (store : Option (F64 → F64)) (val : F64) : F64 :=
  match store with
  | some cb => cb val
  | none => 0

/-- Behaviour of the foreign CallCallback entry point, which is outside
src (it lives in the Go library).  It receives the trampoline as a bare
function pointer together with the numeric argument; we model it by the
list of arguments it feeds to the trampoline (zero, one or many
invocations) and the value it computes from the responses. -/
structure ForeignCallCallback where
  calls : F64 → List F64
  ret : F64 → List F64 → F64

/-- Running the foreign CallCallback against a given callback pointer:
it invokes the callback on each element of its invocation list, in
order, and builds its return value from the responses. -/
def runCallCallback (f : ForeignCallCallback) (cb : F64 → F64) (val : F64) : F64 :=
  f.ret val ((f.calls val).map cb)

/-- Shallow embedding of CircleLibrary.call_callback_with
(main.rs 181-198): arm the global slot with the closure, call the
foreign function with the fixed trampoline, clear the slot, return the
result.  The pair is (returned value, final CALLBACK_STORE contents);
the slot contents during the foreign call are exactly (some callback). -/
def call_callback_with (f : ForeignCallCallback) (store₀ : Option (F64 → F64))
    (val : F64) (callback : F64 → F64) : F64 × Option (F64 → F64) :=
  let armed : Option (F64 → F64) := some callback
  let result := runCallCallback f (trampoline armed) val
  (result, none)

/-- A conforming foreign CallCallback for concrete witnesses: it applies
the callback pointer to its numeric argument exactly once and returns
the response. -/
def idForeign : ForeignCallCallback :=
  { calls := fun x => [x], ret := fun _ rs => rs.headD 0 }

/- ------------------------------------------------------------------
   Theorems for the synchronous path (claims C1, C3, C6).
   ------------------------------------------------------------------ -/

/-- C1: for every closure f and every input x, assuming the foreign
CallCallback entry point applies the function pointer it is given to
its numeric argument and returns the result, call_callback_with(x, f)
returns f(x) — for all x, hence in particular for 0, negative and
large x. -/
theorem call_callback_with_applies (f : ForeignCallCallback)
    (h : ∀ g x, runCallCallback f g x = g x)
    (store₀ : Option (F64 → F64)) (x : F64) (cb : F64 → F64) :
    (call_callback_with f store₀ x cb).1 = cb x := by
  show runCallCallback f (trampoline (some cb)) x = cb x
  rw [h]
  rfl

/-- Witness for C1: with the conforming foreign behaviour, squaring a
negative input through call_callback_with yields its square. -/
theorem call_callback_with_applies_witness :
    (call_callback_with idForeign none (-5 : F64) (fun x => x * x)).1 = 25 := by
  have h : ∀ g x, runCallCallback idForeign g x = g x := fun g x => rfl
  rw [call_callback_with_applies idForeign h none (-5 : F64) (fun x => x * x)]
  norm_num

/-- C3: after every call to call_callback_with completes, the global
CALLBACK_STORE slot is Empty (none), for every foreign behaviour —
whatever number of trampoline invocations it performs and whatever the
slot held before the call. -/
theorem callback_store_cleared (f : ForeignCallCallback)
    (store₀ : Option (F64 → F64)) (val : F64) (cb : F64 → F64) :
    (call_callback_with f store₀ val cb).2 = none := rfl

/-- C6: the synchronous trampoline invoked while the slot is Empty
returns the documented 0.0 sentinel instead of failing. -/
theorem trampoline_empty_default (val : F64) : trampoline none val = 0 := rfl

/- ------------------------------------------------------------------
   One-shot bridge: calculate_circle_area_async and async_trampoline
   (main.rs lines 205-214, 270-274).
   ------------------------------------------------------------------ -/

/-- State of one logical one-shot call.  tokenLive says whether the
boxed oneshot sender handed to the foreign side (the Context Token,
main.rs 207-208) is still a live heap allocation; sent is the value
placed in the oneshot channel, if any; receiverAlive says whether the
consumer end still exists; doubleFree records that Box::from_raw was
executed on a token that had already been reconstructed and dropped —
the undefined behaviour the token invariant forbids. -/
structure OneShotState where
  tokenLive : Bool
  sent : Option F64
  receiverAlive : Bool
  doubleFree : Bool
deriving DecidableEq

/-- Shallow embedding of async_trampoline (main.rs 270-274): it
unconditionally reconstructs the boxed sender from the raw pointer,
sends the result (the send error when the receiver is gone is
discarded), lets the box drop, and returns false.  When the token has
already been reclaimed by an earlier invocation, the Box::from_raw is
a double free; the model records that in the doubleFree flag. -/
def async_trampoline (s : OneShotState) (result : F64) : OneShotState × Bool :=
  if s.tokenLive then
    ({ s with tokenLive := false
              sent := if s.receiverAlive then some result else s.sent }, false)
  else
    ({ s with doubleFree := true }, false)

/-- Folding a sequence of foreign invocations of async_trampoline over
a one-shot state, in order. -/
def runOneShot (invocations : List F64) (s : OneShotState) : OneShotState :=
  invocations.foldl (fun s r => (async_trampoline s r).1) s

/-- State armed by calculate_circle_area_async just after handing the
token to the foreign side: token live, nothing sent, consumer waiting. -/
def oneShotInit : OneShotState :=
  { tokenLive := true, sent := none, receiverAlive := true, doubleFree := false }

/-- State in which the consumer abandoned the call before the foreign
side called back: the receiver end is gone but the token is still
loaned out. -/
def oneShotAbandoned : OneShotState :=
  { tokenLive := true, sent := none, receiverAlive := false, doubleFree := false }

/-- Outcome of awaiting the oneshot receiver once the sender has been
consumed: either a value arrived, or the channel closed with no value. -/
inductive OneshotOutcome where
  | value (v : F64)
  | closed
deriving DecidableEq

/-- Shallow embedding of the receiver side of main.rs line 213,
receiver.await.unwrap_or(0.0): a closed-without-value channel is mapped
to the 0.0 default and an arriving value is returned unchanged, so no
channel error ever reaches the caller. -/
def awaitUnwrapOr : OneshotOutcome → F64
  | OneshotOutcome.value v => v
  | OneshotOutcome.closed => 0

/-- Disposition of the oneshot channel after the foreign side is done:
none while the sender is still loaned out inside a live token (the
await is still pending), otherwise the value sent, or closed. -/
def channelOutcome (s : OneShotState) : Option OneshotOutcome :=
  if s.tokenLive then none
  else some (match s.sent with
    | some v => OneshotOutcome.value v
    | none => OneshotOutcome.closed)

/-- Shallow embedding of calculate_circle_area_async (main.rs 205-214):
arm a fresh oneshot channel and token, let the foreign side invoke the
async trampoline on the results it chooses for the given radius, then
await with unwrap_or 0.0.  none means the await never resolves. -/
def calculate_circle_area_async (foreign : F64 → List F64) (radius : F64) :
    Option F64 :=
  (channelOutcome (runOneShot (foreign radius) oneShotInit)).map awaitUnwrapOr

/- ------------------------------------------------------------------
   Theorems for the one-shot bridge (claims C2, C7, C10).
   ------------------------------------------------------------------ -/

/-- C2 counterexample: when the foreign side invokes the one-shot
trampoline twice, the second invocation executes Box::from_raw on the
token that the first invocation already reconstructed and dropped — a
double free.  The token is therefore not reconstructed-and-dropped
exactly once, and no protocol-violation counter exists on this path,
refuting the claim as stated. -/
theorem oneshot_double_invocation_cx :
    (runOneShot [1, 2] oneShotInit).doubleFree = true := by decide

/-- C2 as amended: when the foreign side invokes the trampoline exactly
once, the bridge resolves with exactly that one value and the token is
reconstructed and dropped exactly once; a second invocation delivers no
second value, but instead of being counted as a protocol violation it
reconstructs the already-freed token, a double free. -/
theorem oneshot_resolves_once (radius r r₁ r₂ : F64) :
    calculate_circle_area_async (fun _ => [r]) radius = some r
    ∧ runOneShot [r] oneShotInit =
        { tokenLive := false, sent := some r, receiverAlive := true,
          doubleFree := false }
    ∧ (runOneShot [r₁, r₂] oneShotInit).sent = some r₁
    ∧ (runOneShot [r₁, r₂] oneShotInit).doubleFree = true := by
  refine ⟨rfl, rfl, rfl, rfl⟩

/-- C7: if the consumer is dropped before the foreign side calls back,
the subsequent trampoline invocation is a no-op apart from reclaiming
the token: the discarded send delivers nothing, no double free occurs,
and the trampoline returns normally; and if the foreign side never
calls back at all, the state is untouched and only the token itself
remains allocated (the documented leak). -/
theorem oneshot_send_after_consumer_drop (r : F64) :
    async_trampoline oneShotAbandoned r
      = ({ oneShotAbandoned with tokenLive := false }, false)
    ∧ runOneShot [] oneShotAbandoned = oneShotAbandoned := ⟨rfl, rfl⟩

/-- C10: the await in calculate_circle_area_async is unwrap_or(0.0): a
oneshot channel that closes without a value resolves to 0.0 rather than
propagating a channel error, and an arriving value is returned as is,
so no error path exists on the consumer side. -/
theorem oneshot_await_unwrap_or :
    awaitUnwrapOr OneshotOutcome.closed = 0
    ∧ ∀ v : F64, awaitUnwrapOr (OneshotOutcome.value v) = v :=
  ⟨rfl, fun _ => rfl⟩

/- ------------------------------------------------------------------
   Multi-shot bridge: calculate_circle_area_async_multi and
   async_trampoline_multi (main.rs lines 218-229, 251-266), plus the
   consumer loop of main (lines 364-391).
   ------------------------------------------------------------------ -/

/-- State of the multi-shot machinery.  queue is the contents of the
unbounded mpsc channel, oldest first; receiverAlive tracks the consumer
end; senderLive tracks whether the Arc-wrapped sender embedded in the
context token is still allocated — the token is created by
Box::into_raw (main.rs 224) and no code ever reconstructs it, so
nothing in the program can set this back to false; count is the
process-global static mut CALLBACK_COUNT (main.rs 262), a u32 modelled
as Nat reduced mod 2 ^ 32, shared by every session and reset by no
operation. -/
structure MultiState where
  queue : List F64
  receiverAlive : Bool
  senderLive : Bool
  count : Nat
deriving DecidableEq

/-- Shallow embedding of async_trampoline_multi (main.rs 251-266): it
borrows the shared sender through the raw pointer, sends the result
(the error when the receiver is gone is printed and otherwise ignored),
increments the process-global u32 counter with wrapping, and returns
the continue flag, true exactly when the updated counter is below 3. -/
def async_trampoline_multi (s : MultiState) (result : F64) : MultiState × Bool :=
  let queue := if s.receiverAlive then s.queue ++ [result] else s.queue
  let count := (s.count + 1) % 2 ^ 32
  ({ s with queue := queue, count := count }, decide (count < 3))

/-- Shallow embedding of calculate_circle_area_async_multi
(main.rs 218-229): it creates a fresh unbounded channel whose shared
sender is leaked into the context token and returns the receiver at
once.  The parameter is the value of the process-global CALLBACK_COUNT
at the moment the session starts. -/
def calculate_circle_area_async_multi (count₀ : Nat) : MultiState :=
  { queue := [], receiverAlive := true, senderLive := true, count := count₀ }

/-- Folding a sequence of foreign invocations of async_trampoline_multi
over a multi-shot state, collecting the continue flags in order. -/
def runMulti : List F64 → MultiState → MultiState × List Bool
  | [], s => (s, [])
  | r :: rest, s =>
    let step := async_trampoline_multi s r
    let next := runMulti rest step.1
    (next.1, step.2 :: next.2)

/-- What one recv on the mpsc receiver observes (main.rs 374): a value,
the channel reported closed, or no result yet — the branch in which the
4 second timeout of the demo loop eventually fires. -/
inductive RecvResult where
  | value (v : F64)
  | closed
  | pending
deriving DecidableEq

/-- Shallow embedding of one rx.recv() step: pop the oldest queued
value; on an empty queue the receiver reports closed only when every
sender is gone, and otherwise stays pending. -/
def recv (s : MultiState) : RecvResult × MultiState :=
  match s.queue with
  | v :: rest => (RecvResult.value v, { s with queue := rest })
  | [] => (if s.senderLive then RecvResult.pending else RecvResult.closed, s)

/-- The consumer loop of main (372-390) receiving every value that has
arrived so far: it returns them oldest first and leaves the queue
empty. -/
def drain (s : MultiState) : List F64 × MultiState :=
  (s.queue, { s with queue := [] })

/- ------------------------------------------------------------------
   Helper lemmas about runMulti.
   ------------------------------------------------------------------ -/

/-- Trampoline invocations never touch the consumer end. -/
theorem runMulti_receiverAlive (rs : List F64) (s : MultiState) :
    (runMulti rs s).1.receiverAlive = s.receiverAlive := by
  induction rs generalizing s with
  | nil => rfl
  | cons r rest ih => exact ih (async_trampoline_multi s r).1

/-- No operation in the program ever drops the leaked sender. -/
theorem runMulti_senderLive (rs : List F64) (s : MultiState) :
    (runMulti rs s).1.senderLive = s.senderLive := by
  induction rs generalizing s with
  | nil => rfl
  | cons r rest ih => exact ih (async_trampoline_multi s r).1

/-- With a live receiver, each invocation appends its value, so the
queue after a run is the prior queue followed by the invocation
arguments in order. -/
theorem runMulti_queue (rs : List F64) (s : MultiState)
    (h : s.receiverAlive = true) :
    (runMulti rs s).1.queue = s.queue ++ rs := by
  induction rs generalizing s with
  | nil => simp [runMulti]
  | cons r rest ih =>
    have hstep : (async_trampoline_multi s r).1.receiverAlive = true := h
    show (runMulti rest (async_trampoline_multi s r).1).1.queue = s.queue ++ r :: rest
    rw [ih _ hstep]
    show (if s.receiverAlive then s.queue ++ [r] else s.queue) ++ rest
      = s.queue ++ r :: rest
    rw [h]
    simp

/-- Wrapped-increment arithmetic for the flag formula. -/
theorem modStepArith (c j : Nat) :
    ((c + 1) % 2 ^ 32 + j + 1) % 2 ^ 32 = (c + (j + 1) + 1) % 2 ^ 32 := by
  rw [Nat.add_assoc, Nat.mod_add_mod]
  omega

/-- The continue flags of a run: the flag of the invocation at
(0-based) position j is true exactly when the wrapped counter value
after that invocation, (count + j + 1) mod 2 ^ 32, is below 3. -/
theorem runMulti_flags (rs : List F64) (s : MultiState) (h : s.count < 2 ^ 32) :
    (runMulti rs s).2 =
      (List.range rs.length).map
        (fun j => decide ((s.count + j + 1) % 2 ^ 32 < 3)) := by
  induction rs generalizing s with
  | nil => rfl
  | cons r rest ih =>
    have hlt : (async_trampoline_multi s r).1.count < 2 ^ 32 :=
      Nat.mod_lt _ (by norm_num)
    show (async_trampoline_multi s r).2
        :: (runMulti rest (async_trampoline_multi s r).1).2 = _
    rw [List.length_cons, List.range_succ_eq_map, List.map_cons, List.map_map,
      ih _ hlt]
    refine congrArg₂ List.cons ?_ ?_
    · show decide ((s.count + 1) % 2 ^ 32 < 3)
        = decide ((s.count + 0 + 1) % 2 ^ 32 < 3)
      rw [Nat.add_zero]
    · refine List.map_congr_left ?_
      intro j hj
      show decide (((s.count + 1) % 2 ^ 32 + j + 1) % 2 ^ 32 < 3)
        = decide ((s.count + Nat.succ j + 1) % 2 ^ 32 < 3)
      rw [decide_eq_decide, Nat.succ_eq_add_one, modStepArith]

/- ------------------------------------------------------------------
   Theorems for the multi-shot bridge (claims C4, C5, C9).
   ------------------------------------------------------------------ -/

/-- C4 counterexample: after a fresh-process session in which the
foreign side invoked the trampoline exactly three times and every
queued value has been received, the next recv is pending, not closed —
the sender inside the leaked context token is never dropped, so the
consumer never observes end-of-stream; the demo loop instead hits its
timeout branch. -/
theorem multi_no_end_of_stream_cx :
    (recv (drain (runMulti [1, 2, 3]
        (calculate_circle_area_async_multi 0)).1).2).1 = RecvResult.pending
    ∧ (recv (drain (runMulti [1, 2, 3]
        (calculate_circle_area_async_multi 0)).1).2).1 ≠ RecvResult.closed := by
  decide

/-- C4 as amended: a fresh-process multi-shot session whose foreign
side invokes the trampoline three times delivers exactly those three
values to the consumer in order, and the trampoline signals stop
(returns false) on the third invocation, so a conforming foreign side
makes no fourth call and no fourth value exists; but the consumer does
not observe end-of-stream — the channel is never closed because the
sender embedded in the leaked context token is never dropped, so a
consumer waiting for a fourth value observes a timeout, not
channel-closed. -/
theorem multi_three_values_then_pending (a b c : F64) :
    (runMulti [a, b, c] (calculate_circle_area_async_multi 0)).2
      = [true, true, false]
    ∧ (runMulti [a, b, c] (calculate_circle_area_async_multi 0)).1.queue
      = [a, b, c]
    ∧ (drain (runMulti [a, b, c] (calculate_circle_area_async_multi 0)).1).1
      = [a, b, c]
    ∧ (recv (drain (runMulti [a, b, c]
        (calculate_circle_area_async_multi 0)).1).2).1 = RecvResult.pending :=
  ⟨rfl, rfl, rfl, rfl⟩

/-- C5 counterexample: in a session started when the process-global
counter is already 7, the foreign side receives false on its very
first invocation — the stop signal was given and no call limit remains
— yet after the consumer has received every delivered value the next
recv is still not closed: the delivered sequence does not terminate
when the foreign side is told to stop, refuting the claimed iff. -/
theorem multi_termination_cx :
    (runMulti [5] (calculate_circle_area_async_multi 7)).2 = [false]
    ∧ (recv (drain (runMulti [5]
        (calculate_circle_area_async_multi 7)).1).2).1 ≠ RecvResult.closed := by
  decide

/-- C5 as amended: within one session the values on the receiver appear
in exactly the order in which the foreign side invoked the trampoline,
and the continue flag of the invocation at position j is false exactly
when the wrapped global count (count + j + 1) mod 2 ^ 32 has reached 3;
but the delivered sequence never terminates from the consumer
viewpoint: whatever the flags said, the channel stays open because the
sender inside the leaked token is never dropped, and a consumer that
has drained the queue observes pending, never closed. -/
theorem multi_order_no_close (rs : List F64) (c₀ : Nat) (h : c₀ < 2 ^ 32) :
    (runMulti rs (calculate_circle_area_async_multi c₀)).1.queue = rs
    ∧ (drain (runMulti rs (calculate_circle_area_async_multi c₀)).1).1 = rs
    ∧ (runMulti rs (calculate_circle_area_async_multi c₀)).2 =
        (List.range rs.length).map
          (fun j => decide ((c₀ + j + 1) % 2 ^ 32 < 3))
    ∧ (recv (drain (runMulti rs
        (calculate_circle_area_async_multi c₀)).1).2).1 = RecvResult.pending := by
  have hq : (runMulti rs (calculate_circle_area_async_multi c₀)).1.queue = rs :=
    runMulti_queue rs (calculate_circle_area_async_multi c₀) rfl
  have hs : (runMulti rs (calculate_circle_area_async_multi c₀)).1.senderLive
      = true :=
    runMulti_senderLive rs (calculate_circle_area_async_multi c₀)
  refine ⟨hq, hq, runMulti_flags rs _ h, ?_⟩
  show (if ((runMulti rs (calculate_circle_area_async_multi c₀)).1).senderLive
      then RecvResult.pending else RecvResult.closed) = RecvResult.pending
  rw [hs]
  rfl

/-- Witness for C5: a session of two invocations started at global
count 1 delivers both values in order, returns the flags given by the
wrapped-count formula, and still leaves the consumer pending after the
queue is drained. -/
theorem multi_order_no_close_witness :
    (runMulti [4, 5] (calculate_circle_area_async_multi 1)).1.queue = [4, 5]
    ∧ (drain (runMulti [4, 5] (calculate_circle_area_async_multi 1)).1).1
      = [4, 5]
    ∧ (runMulti [4, 5] (calculate_circle_area_async_multi 1)).2 =
        (List.range (List.length [(4 : F64), 5])).map
          (fun j => decide ((1 + j + 1) % 2 ^ 32 < 3))
    ∧ (recv (drain (runMulti [4, 5]
        (calculate_circle_area_async_multi 1)).1).2).1 = RecvResult.pending :=
  multi_order_no_close [4, 5] 1 (by norm_num)

/-- C9 counterexample: the invocation at 0-based position 2 ^ 32 - 1 of
a fresh process — the 2 ^ 32 nd invocation process-wide — receives the
continue flag true, because the u32 counter has wrapped to 0: the
trampoline does not return false on every invocation after the second. -/
theorem multi_count_wraps_cx :
    (runMulti (List.replicate (2 ^ 32) (1 : F64))
        (calculate_circle_area_async_multi 0)).2[2 ^ 32 - 1]? = some true := by
  rw [runMulti_flags _ _ (by norm_num [calculate_circle_area_async_multi])]
  rw [List.getElem?_map, List.length_replicate,
    List.getElem?_range (by norm_num)]
  show some (decide (((calculate_circle_area_async_multi 0).count
      + (2 ^ 32 - 1) + 1) % 2 ^ 32 < 3)) = some true
  norm_num [calculate_circle_area_async_multi]

/-- C9 as amended: CALLBACK_COUNT is a single process-global u32 that
is incremented with wrapping on every invocation and reset by no
operation, so the continue signal depends on the total invocation count
across every session: the invocation at process-wide 0-based position j
returns true exactly when (j + 1) mod 2 ^ 32 is below 3 — true for the
first two invocations, false on every later invocation until the
counter wraps after 2 ^ 32 invocations — and any session started after
three total callbacks, before the counter wraps, signals stop on its
very first invocation. -/
theorem multi_count_process_global (rs : List F64) (j : Nat)
    (hj : j < rs.length) (c₀ : Nat) (r : F64) (h3 : 3 ≤ c₀)
    (hlt : c₀ + 1 < 2 ^ 32) :
    (runMulti rs (calculate_circle_area_async_multi 0)).2[j]?
      = some (decide ((j + 1) % 2 ^ 32 < 3))
    ∧ (async_trampoline_multi (calculate_circle_area_async_multi c₀) r).2
      = false := by
  constructor
  · rw [runMulti_flags _ _ (by norm_num [calculate_circle_area_async_multi])]
    rw [List.getElem?_map, List.getElem?_range hj]
    show some (decide (((calculate_circle_area_async_multi 0).count + j + 1)
        % 2 ^ 32 < 3)) = _
    norm_num [calculate_circle_area_async_multi]
  · show decide ((c₀ + 1) % 2 ^ 32 < 3) = false
    rw [Nat.mod_eq_of_lt hlt]
    exact decide_eq_false_iff_not.mpr (by omega)

/-- Witness for C9: in a four-invocation run from a fresh process the
fourth invocation returns false, and a single invocation in a session
started at global count 3 returns false at once. -/
theorem multi_count_process_global_witness :
    (runMulti [1, 1, 1, 1] (calculate_circle_area_async_multi 0)).2[3]?
      = some (decide ((3 + 1) % 2 ^ 32 < 3))
    ∧ (async_trampoline_multi (calculate_circle_area_async_multi 3) 1).2
      = false :=
  multi_count_process_global [1, 1, 1, 1] 3 (by decide) 3 1 (by norm_num)
    (by norm_num)

/- ------------------------------------------------------------------
   String formatting bridge: format_circle_info (main.rs 151-164).
   ------------------------------------------------------------------ -/

/-- Shallow embedding of CircleLibrary.format_circle_info
(main.rs 151-164).  The foreign FormatCircleInfo entry point is
modelled by a function from the radius to an optional pair of the
returned pointer (a Nat standing for the address) and the text stored
there; none models a null pointer.  The result pairs what the method
returns — the error for a null pointer, otherwise the converted text —
with the list of pointers passed to the paired FreeString entry point,
in order. -/
def format_circle_info (fmt : F64 → Option (Nat × String)) (radius : F64) :
    Except String String × List Nat :=
  match fmt radius with
  | none => (Except.error "Received null pointer from format_circle_info", [])
  | some (p, s) => (Except.ok s, [p])

/-- A foreign formatter for concrete witnesses: null at radius 0, a
string at address 7 otherwise. -/
def fmtEx : F64 → Option (Nat × String) :=
  fun r => if r = 0 then none else some (7, "circle")

/-- C8: when the foreign formatting function returns a null pointer,
format_circle_info returns the null-result error and the deallocator is
not called; when it returns a non-null pointer, the converted text is
returned and that exact pointer is released through FreeString exactly
once. -/
theorem format_circle_info_null_and_free (fmt : F64 → Option (Nat × String))
    (radius : F64) :
    (fmt radius = none →
      format_circle_info fmt radius
        = (Except.error "Received null pointer from format_circle_info", []))
    ∧ (∀ p s, fmt radius = some (p, s) →
      format_circle_info fmt radius = (Except.ok s, [p])) := by
  constructor
  · intro h
    simp [format_circle_info, h]
  · intro p s h
    simp [format_circle_info, h]

/-- Witness for C8: the concrete formatter at radius 0 surfaces the
error without freeing anything, and at radius 1 yields the text and
frees pointer 7 exactly once. -/
theorem format_circle_info_witness :
    format_circle_info fmtEx 0
      = (Except.error "Received null pointer from format_circle_info", [])
    ∧ format_circle_info fmtEx 1 = (Except.ok "circle", [7]) :=
  ⟨(format_circle_info_null_and_free fmtEx 0).1 (by decide),
   (format_circle_info_null_and_free fmtEx 1).2 7 "circle" (by decide)⟩
